import Mathlib

/-!
Shallow embedding of the sweep/framing core of the SerialPort-Eddy
repository (src/App.tsx and src/utils/hexUtils.ts), together with proofs
about the embedded operations.

Modelling conventions:
- JS strings are modelled as lists of characters; Uint8Array as lists of
  naturals whose relevant entries are below 256.
- JS numbers holding counters, byte values and statistics are modelled as
  naturals; the numeric inputs exercised by the claims are nonnegative
  integers.
- The frequency value, a JS double, is modelled as a rational. For the
  inputs in scope the JS double arithmetic is exact up to the final
  toFixed rounding, which is modelled by round4 below.
- The transport is abstracted as always connected and always succeeding;
  transmitted byte sequences are recorded as events.
-/

namespace SerialSweep

/-- Source: cleanHexString in src/utils/hexUtils.ts keeps the characters
matched by the regex class 0-9A-Fa-f. -/
def isHexDigitChar (c : Char) : Bool :=
  (48 ≤ c.toNat && c.toNat ≤ 57) ||
  (97 ≤ c.toNat && c.toNat ≤ 102) ||
  (65 ≤ c.toNat && c.toNat ≤ 70)

/-- Source: cleanHexString — strip all non-hex characters and uppercase. -/
def cleanHexString (input : List Char) : List Char :=
  (input.filter isHexDigitChar).map Char.toUpper

/-- The sixteen uppercase hex digits, as produced by toString(16) plus
toUpperCase on a value below 16. -/
def hexDigitChar (n : Nat) : Char :=
  (['0', '1', '2', '3', '4', '5', '6', '7', '8', '9',
    'A', 'B', 'C', 'D', 'E', 'F']).getD n '0'

/-- Numeric value of one hex digit, as parseInt with radix 16 assigns to
it (cleaned strings only contain digits and uppercase A-F, the lowercase
arm mirrors parseInt accepting lowercase as well). -/
def hexCharVal (c : Char) : Nat :=
  if 48 ≤ c.toNat && c.toNat ≤ 57 then c.toNat - 48
  else if 97 ≤ c.toNat && c.toNat ≤ 102 then c.toNat - 87
  else if 65 ≤ c.toNat && c.toNat ≤ 70 then c.toNat - 55
  else 0

/-- Source: uint8ArrayToHex renders one byte as two uppercase hex digits
(toString(16) padded to width 2); entries of a Uint8Array are below 256. -/
def byteToHexChars (b : Nat) : List Char :=
  [hexDigitChar (b / 16), hexDigitChar (b % 16)]

/-- Source: uint8ArrayToHex in src/utils/hexUtils.ts — two hex digits per
byte, joined with single spaces. -/
def uint8ArrayToHex : List Nat → List Char
  | [] => []
  | [b] => byteToHexChars b
  | b :: rest => byteToHexChars b ++ ' ' :: uint8ArrayToHex rest

/-- Parse consecutive pairs of (cleaned) hex digits into bytes, as the
loop in hexToUint8Array does with parseInt(substring(i, i+2), 16). -/
def pairsToBytes : List Char → List Nat
  | c1 :: c2 :: rest => (hexCharVal c1 * 16 + hexCharVal c2) :: pairsToBytes rest
  | _ => []

/-- Source: hexToUint8Array in src/utils/hexUtils.ts. Throwing on an odd
digit count is modelled by returning none. -/
def hexToUint8Array (input : List Char) : Option (List Nat) :=
  if (cleanHexString input).length % 2 = 1 then none
  else some (pairsToBytes (cleanHexString input))

/-- Source: bytesToDecimal in src/utils/hexUtils.ts —
(highByte << 8) | lowByte. -/
def bytesToDecimal (highByte lowByte : Nat) : Nat :=
  (highByte <<< 8) ||| lowByte

/-- Source: decimalToBytes in src/utils/hexUtils.ts —
((value >> 8) & 0xFF, value & 0xFF). For a nonnegative value below 2 to
the 31 the JS signed shift agrees with the natural-number shift used
here. -/
def decimalToBytes (value : Nat) : Nat × Nat :=
  ((value >>> 8) &&& 0xFF, value &&& 0xFF)

/-- Source: parseInt(text.replace(...), 16) applied to the range fields;
the result is NaN exactly when no hex digit remains, modelled as none. -/
def parseHex16 (input : List Char) : Option Nat :=
  if cleanHexString input = [] then none
  else some ((cleanHexString input).foldl (fun acc c => acc * 16 + hexCharVal c) 0)

theorem decimalToBytes_eq (v : Nat) :
    decimalToBytes v = (v / 256 % 256, v % 256) := by
  rw [decimalToBytes]
  have h1 : v >>> 8 = v / 256 := by
    rw [Nat.shiftRight_eq_div_pow]
  have h2 : (v / 256) &&& 0xFF = v / 256 % 256 := Nat.and_pow_two_sub_one_eq_mod _ 8
  have h3 : v &&& 0xFF = v % 256 := Nat.and_pow_two_sub_one_eq_mod _ 8
  rw [h1, h2, h3]

theorem decimalToBytes_lt (v : Nat) :
    (decimalToBytes v).1 < 256 ∧ (decimalToBytes v).2 < 256 := by
  rw [decimalToBytes_eq]
  exact ⟨Nat.mod_lt _ (by omega), Nat.mod_lt _ (by omega)⟩

/-- Two hex digits per byte without the joining spaces; the cleaned form
of the canonical hex rendering. -/
def hexFlat : List Nat → List Char
  | [] => []
  | b :: rest => byteToHexChars b ++ hexFlat rest

theorem hexCharVal_lt (c : Char) : hexCharVal c < 16 := by
  unfold hexCharVal
  split
  · next h => simp only [Bool.and_eq_true, decide_eq_true_eq] at h; omega
  · split
    · next h => simp only [Bool.and_eq_true, decide_eq_true_eq] at h; omega
    · split
      · next h => simp only [Bool.and_eq_true, decide_eq_true_eq] at h; omega
      · omega

theorem hexDigitChar_spec : ∀ n < 16,
    isHexDigitChar (hexDigitChar n) = true ∧
    Char.toUpper (hexDigitChar n) = hexDigitChar n ∧
    hexCharVal (hexDigitChar n) = n := by decide

theorem clean_append (xs ys : List Char) :
    cleanHexString (xs ++ ys) = cleanHexString xs ++ cleanHexString ys := by
  simp [cleanHexString]

theorem clean_space (ys : List Char) :
    cleanHexString (' ' :: ys) = cleanHexString ys := by
  simp [cleanHexString, isHexDigitChar]

theorem clean_byteToHexChars (b : Nat) (hb : b < 256) :
    cleanHexString (byteToHexChars b) = byteToHexChars b := by
  have h1 := hexDigitChar_spec (b / 16) (by omega)
  have h2 := hexDigitChar_spec (b % 16) (by omega)
  simp [cleanHexString, byteToHexChars, h1.1, h1.2.1, h2.1, h2.2.1]

theorem clean_uint8ArrayToHex : ∀ bs : List Nat, (∀ b ∈ bs, b < 256) →
    cleanHexString (uint8ArrayToHex bs) = hexFlat bs
  | [], _ => by simp [uint8ArrayToHex, hexFlat, cleanHexString]
  | [b], h => by
    simpa [uint8ArrayToHex, hexFlat] using
      clean_byteToHexChars b (h b (by simp))
  | b :: c :: rest, h => by
    have hb : b < 256 := h b (by simp)
    have ih := clean_uint8ArrayToHex (c :: rest) (fun x hx => h x (by simp [hx]))
    simp only [uint8ArrayToHex, hexFlat]
    rw [clean_append, clean_space, clean_byteToHexChars b hb, ih]
    simp [hexFlat]

theorem pairsToBytes_hexFlat : ∀ bs : List Nat, (∀ b ∈ bs, b < 256) →
    pairsToBytes (hexFlat bs) = bs
  | [], _ => rfl
  | b :: rest, h => by
    have hb : b < 256 := h b (by simp)
    have h1 := hexDigitChar_spec (b / 16) (by omega)
    have h2 := hexDigitChar_spec (b % 16) (by omega)
    have ih := pairsToBytes_hexFlat rest (fun x hx => h x (by simp [hx]))
    simp only [hexFlat, byteToHexChars, List.cons_append, List.nil_append,
      pairsToBytes, ih, h1.2.2, h2.2.2]
    congr 1
    omega

theorem hexFlat_length : ∀ bs : List Nat, (hexFlat bs).length = 2 * bs.length
  | [] => rfl
  | b :: rest => by
    simp [hexFlat, byteToHexChars, hexFlat_length rest]
    omega

theorem hexToUint8Array_roundtrip (bs : List Nat) (h : ∀ b ∈ bs, b < 256) :
    hexToUint8Array (uint8ArrayToHex bs) = some bs := by
  unfold hexToUint8Array
  rw [clean_uint8ArrayToHex bs h]
  rw [hexFlat_length bs]
  simp [Nat.mul_mod_right, pairsToBytes_hexFlat bs h]

theorem hexToUint8Array_bytes_lt :
    ∀ hx bs, hexToUint8Array hx = some bs → ∀ b ∈ bs, b < 256 := by
  intro hx bs h
  unfold hexToUint8Array at h
  split at h
  · exact absurd h (by simp)
  · simp only [Option.some.injEq] at h
    subst h
    generalize cleanHexString hx = cs
    induction cs using pairsToBytes.induct with
    | case1 c1 c2 rest ih =>
      intro b hb
      simp only [pairsToBytes, List.mem_cons] at hb
      rcases hb with hb | hb
      · have := hexCharVal_lt c1
        have := hexCharVal_lt c2
        omega
      · exact ih b hb
    | case2 cs h2 =>
      intro b hb
      rw [pairsToBytes] at hb
      · simp at hb
      · exact h2

/-- Events emitted toward the presentation layer: addLog entries (tx
entries carry the transmitted bytes, the completion log is kept apart
from plain info logs) and the per-chunk rx log. -/
inductive SEvent where
  | tx (bytes : List Nat)
  | rxLog
  | info
  | error
  | complete
deriving DecidableEq, Repr

/-- Configuration inputs of src/App.tsx read by the sweep controller and
the frame reassembler: the sweep range fields (kept as hex text, parsed
at use sites exactly as the source re-parses them), the increment step,
the command template text, the TX byte-manipulation settings, the RX
parse settings and the strict-validation toggle. -/
structure AppConfig where
  rangeStartHex : List Char
  rangeEndHex : List Char
  incrementStep : Nat
  sweepBaseHex : List Char
  targetByteIndex : Nat
  isBigEndian : Bool
  rxByteIndex : Nat
  rxIsBigEndian : Bool
  enableHeaderCheck : Bool
deriving DecidableEq, Repr

/-- Mutable run state of src/App.tsx: the counter, the correlation refs
(pendingFrequencyRef, lastSentHexRef, waitingForResponseRef), the UI
flags, the statistics, the chart sequence, the RX reassembly buffer and
the emitted events. -/
structure SweepState where
  counter : Nat
  pendingFrequency : Option ℚ
  lastSentHex : Option (List Char)
  waitingForResponse : Bool
  isRetrying : Bool
  txCount : Nat
  rxValid : Nat
  rxInvalid : Nat
  chart : List (ℚ × Nat)
  rxBuffer : List Nat
  lastReceivedValue : Option Nat
  isRxInvalid : Bool
  isAutoSending : Bool
  events : List SEvent
deriving DecidableEq, Repr

/-- The state right after the component mounts: counter 0, no refs set,
everything cleared. -/
def initState : SweepState :=
  { counter := 0
    pendingFrequency := none
    lastSentHex := none
    waitingForResponse := false
    isRetrying := false
    txCount := 0
    rxValid := 0
    rxInvalid := 0
    chart := []
    rxBuffer := []
    lastReceivedValue := none
    isRxInvalid := false
    isAutoSending := false
    events := [] }

/-- Number(x.toFixed(4)) for a nonnegative double x: round to the nearest
multiple of 1/10000, ties away from zero. The reparsed double is
identified with the exact rounded decimal, which the doubles in scope
represent faithfully enough to preserve every comparison made here. -/
def round4 (q : ℚ) : ℚ := ((⌊q * 10000 + 1 / 2⌋ : ℚ)) / 10000

/-- The raw frequency computed per tick in src/App.tsx line 621:
(currentVal / 65536) * 32000, in kHz. -/
def rawFreq (code : Nat) : ℚ := ((code : ℚ) / 65536) * 32000

/-- Source: parseAndRecord in src/App.tsx lines 520-548. Decodes the two
payload bytes per RX endianness, updates the live value display, and, if
a pending frequency is set, appends a chart point at
Number(pendingFrequency.toFixed(4)). The source does not reset
pendingFrequencyRef here. -/
def parseAndRecord (cfg : AppConfig) (b1 b2 : Nat) (s : SweepState) : SweepState :=
  let v := if cfg.rxIsBigEndian then bytesToDecimal b1 b2 else bytesToDecimal b2 b1
  let s1 := { s with lastReceivedValue := some v, isRxInvalid := false }
  match s1.pendingFrequency with
  | some f => { s1 with chart := s1.chart ++ [(round4 f, v)] }
  | none => s1

/-- Strict-mode frame header, src/App.tsx line 433. -/
def HEADER : List Nat := [0xFF, 0xFE, 0xFD, 0xFC, 0x02, 0x56]

/-- Strict-mode frame footer, src/App.tsx line 434. -/
def FOOTER : List Nat := [0xFB, 0xFA, 0xF9, 0xF8]

/-- State updates performed after the scan loop of processRxBuffer exits
without a valid packet: trim the consumed prefix, and if a response was
awaited flag the live display as INVALID. -/
def scanEnd (s : SweepState) (buffer : List Nat) (ptr : Nat) :
    SweepState × List Nat :=
  if s.waitingForResponse then
    ({ s with
        rxBuffer := buffer.drop ptr
        isRxInvalid := true
        lastReceivedValue := none }, [])
  else ({ s with rxBuffer := buffer.drop ptr }, [])

/-- Source: the while loop of processRxBuffer in src/App.tsx lines
441-506 plus the post-loop handling in lines 508-517. The fuel argument
only bounds the iteration count; every caller passes at least
buffer.length + 1 and each iteration advances ptr by at least one, so
the zero-fuel arm is never reached from the entry points below. The
returned list carries the valid measurement of the call, if any; the
early return in the valid arm makes it at most one. -/
def scanLoop (cfg : AppConfig) (buffer : List Nat) :
    Nat → Nat → SweepState → SweepState × List Nat
  | 0, ptr, s => scanEnd s buffer ptr
  | fuel + 1, ptr, s =>
    if ptr + 15 ≤ buffer.length then
      if (buffer.drop ptr).take 6 = HEADER then
        if (buffer.drop (ptr + 11)).take 4 = FOOTER then
          let b1 := buffer.getD (ptr + 6) 0
          let b2 := buffer.getD (ptr + 7) 0
          let val := if cfg.rxIsBigEndian then bytesToDecimal b1 b2
            else bytesToDecimal b2 b1
          if val ≤ 4096 then
            let s1 := parseAndRecord cfg b1 b2 s
            ({ s1 with
                rxValid := s1.rxValid + 1
                waitingForResponse := false
                isRetrying := false
                isRxInvalid := false
                rxBuffer := buffer.drop (ptr + 15) }, [val])
          else
            scanLoop cfg buffer fuel (ptr + 15)
              { s with rxInvalid := s.rxInvalid + 1 }
        else
          scanLoop cfg buffer fuel (ptr + 1)
            { s with rxInvalid := s.rxInvalid + 1 }
      else scanLoop cfg buffer fuel (ptr + 1) s
    else scanEnd s buffer ptr

/-- Source: processRxBuffer in src/App.tsx lines 432-518, run against the
current reassembly buffer. -/
def processRxBuffer (cfg : AppConfig) (s : SweepState) : SweepState × List Nat :=
  scanLoop cfg s.rxBuffer (s.rxBuffer.length + 1) 0 s

/-- Source: handleDataReceived in src/App.tsx lines 408-430 — log the
chunk, append it to the reassembly buffer, then run either the strict
scan or the fixed-index parse. -/
def handleDataReceived (cfg : AppConfig) (chunk : List Nat) (s : SweepState) :
    SweepState × List Nat :=
  let s0 := { s with
    events := s.events ++ [SEvent.rxLog]
    rxBuffer := s.rxBuffer ++ chunk }
  if cfg.enableHeaderCheck then processRxBuffer cfg s0
  else
    if cfg.rxByteIndex + 1 < s0.rxBuffer.length then
      let b1 := s0.rxBuffer.getD cfg.rxByteIndex 0
      let b2 := s0.rxBuffer.getD (cfg.rxByteIndex + 1) 0
      let v := if cfg.rxIsBigEndian then bytesToDecimal b1 b2
        else bytesToDecimal b2 b1
      let s1 := parseAndRecord cfg b1 b2 s0
      ({ s1 with rxValid := s1.rxValid + 1, rxBuffer := [] }, [v])
    else (s0, [])

/-- Source: sendData in src/App.tsx lines 384-402, abstracting a
connected port whose write succeeds: parse the hex text, write the
bytes, log the tx and bump the tx statistic; a parse failure is caught,
logged and stops auto-send. -/
def sendData (hx : List Char) (s : SweepState) : SweepState :=
  match hexToUint8Array hx with
  | some data =>
    { s with events := s.events ++ [SEvent.tx data], txCount := s.txCount + 1 }
  | none =>
    { s with events := s.events ++ [SEvent.error], isAutoSending := false }

/-- Source: tickAutoSend in src/App.tsx lines 576-643. Retry path first;
then range check against the re-parsed end value (a NaN end compares
false in JS, so the sweep keeps sending); then template parse and bounds
check; then byte substitution, pending-frequency assignment, transmit,
lock and counter advance. The catch arm corresponds to the template
parse failing. -/
def tickAutoSend (cfg : AppConfig) (s : SweepState) : SweepState :=
  if cfg.enableHeaderCheck ∧ s.waitingForResponse then
    match s.lastSentHex with
    | some hx => sendData hx { s with isRetrying := true }
    | none => s
  else
    let s0 := { s with isRetrying := false }
    let atEnd := match parseHex16 cfg.rangeEndHex with
      | some e => decide (e < s0.counter)
      | none => false
    if atEnd then
      { s0 with isAutoSending := false, events := s0.events ++ [SEvent.complete] }
    else
      match hexToUint8Array cfg.sweepBaseHex with
      | none =>
        { s0 with isAutoSending := false, events := s0.events ++ [SEvent.error] }
      | some baseBytes =>
        if baseBytes.length ≤ cfg.targetByteIndex + 1 then
          { s0 with isAutoSending := false, events := s0.events ++ [SEvent.error] }
        else
          let hi := (decimalToBytes s0.counter).1
          let lo := (decimalToBytes s0.counter).2
          let outBytes := if cfg.isBigEndian then
              (baseBytes.set cfg.targetByteIndex hi).set (cfg.targetByteIndex + 1) lo
            else
              (baseBytes.set cfg.targetByteIndex lo).set (cfg.targetByteIndex + 1) hi
          let newHex := uint8ArrayToHex outBytes
          let s1 := { s0 with
            pendingFrequency := some (rawFreq s0.counter)
            lastSentHex := some newHex }
          let s2 := sendData newHex s1
          let s3 := if cfg.enableHeaderCheck then
              { s2 with waitingForResponse := true, isRxInvalid := false }
            else s2
          { s3 with counter := s0.counter + cfg.incrementStep }

/-- Source: toggleAutoSend in src/App.tsx lines 660-693. The stop arm
clears the lock-step flags and the buffer; the start arm validates only
that the range fields parse as hex, then resets the session and starts
ticking. -/
def toggleAutoSend (cfg : AppConfig) (s : SweepState) : SweepState :=
  if s.isAutoSending then
    { s with
      isAutoSending := false
      waitingForResponse := false
      isRetrying := false
      rxBuffer := [] }
  else
    match parseHex16 cfg.rangeStartHex, parseHex16 cfg.rangeEndHex with
    | some st, some _ =>
      { s with
        counter := st
        chart := []
        pendingFrequency := none
        waitingForResponse := false
        isRetrying := false
        isRxInvalid := false
        rxBuffer := []
        txCount := 0
        rxValid := 0
        rxInvalid := 0
        isAutoSending := true
        events := s.events ++ [SEvent.info] }
    | _, _ => { s with events := s.events ++ [SEvent.error] }

/-- A strict-mode wire frame: header, two payload bytes, three
unconstrained bytes, footer. -/
def frameBytes (b1 b2 x1 x2 x3 : Nat) : List Nat :=
  [0xFF, 0xFE, 0xFD, 0xFC, 0x02, 0x56, b1, b2, x1, x2, x3,
   0xFB, 0xFA, 0xF9, 0xF8]

theorem process_valid_frame (cfg : AppConfig) (s : SweepState) (b1 b2 x1 x2 x3 : Nat)
    (hrx : cfg.rxIsBigEndian = true) (hval : bytesToDecimal b1 b2 ≤ 4096)
    (hbuf : s.rxBuffer = frameBytes b1 b2 x1 x2 x3) :
    processRxBuffer cfg s =
      ({ s with
          lastReceivedValue := some (bytesToDecimal b1 b2)
          isRxInvalid := false
          chart := s.chart ++ (match s.pendingFrequency with
            | some f => [(round4 f, bytesToDecimal b1 b2)]
            | none => [])
          rxValid := s.rxValid + 1
          waitingForResponse := false
          isRetrying := false
          rxBuffer := [] }, [bytesToDecimal b1 b2]) := by
  unfold processRxBuffer
  rw [hbuf]
  rw [scanLoop.eq_2]
  rw [if_pos (show 0 + 15 ≤ (frameBytes b1 b2 x1 x2 x3).length by simp [frameBytes])]
  rw [if_pos (show ((frameBytes b1 b2 x1 x2 x3).drop 0).take 6 = HEADER from rfl)]
  rw [if_pos (show ((frameBytes b1 b2 x1 x2 x3).drop (0 + 11)).take 4 = FOOTER from rfl)]
  simp only [frameBytes, List.getD, List.get?, Option.getD_some, hrx, if_true]
  rw [if_pos hval]
  simp only [parseAndRecord, hrx, if_true]
  cases hp : s.pendingFrequency with
  | none => simp [hp, List.drop]
  | some f => simp [hp, List.drop]

theorem tick_retry_eq (cfg : AppConfig) (s : SweepState) (hx : List Char)
    (data : List Nat) (h1 : cfg.enableHeaderCheck = true)
    (h2 : s.waitingForResponse = true) (h3 : s.lastSentHex = some hx)
    (h4 : hexToUint8Array hx = some data) :
    tickAutoSend cfg s =
      { s with
        isRetrying := true
        txCount := s.txCount + 1
        events := s.events ++ [SEvent.tx data] } := by
  unfold tickAutoSend
  have hc : cfg.enableHeaderCheck ∧ s.waitingForResponse := by simp [h1, h2]
  rw [if_pos hc, h3]
  simp [sendData, h4]

theorem tick_send_eq (cfg : AppConfig) (s : SweepState) (e : Nat)
    (baseBytes : List Nat)
    (hw : s.waitingForResponse = false)
    (hend : parseHex16 cfg.rangeEndHex = some e)
    (hle : s.counter ≤ e)
    (hbase : hexToUint8Array cfg.sweepBaseHex = some baseBytes)
    (hlen : cfg.targetByteIndex + 1 < baseBytes.length) :
    tickAutoSend cfg s =
      (fun outBytes =>
        { s with
          isRetrying := false
          pendingFrequency := some (rawFreq s.counter)
          lastSentHex := some (uint8ArrayToHex outBytes)
          txCount := s.txCount + 1
          events := s.events ++ [SEvent.tx outBytes]
          waitingForResponse := cfg.enableHeaderCheck
          isRxInvalid := (!cfg.enableHeaderCheck && s.isRxInvalid)
          counter := s.counter + cfg.incrementStep })
        (if cfg.isBigEndian then
          (baseBytes.set cfg.targetByteIndex (decimalToBytes s.counter).1).set
            (cfg.targetByteIndex + 1) (decimalToBytes s.counter).2
        else
          (baseBytes.set cfg.targetByteIndex (decimalToBytes s.counter).2).set
            (cfg.targetByteIndex + 1) (decimalToBytes s.counter).1) := by
  have hc : ¬(cfg.enableHeaderCheck ∧ s.waitingForResponse) := by simp [hw]
  unfold tickAutoSend
  rw [if_neg hc]
  simp only [hend, hbase]
  rw [if_neg (show ¬((decide (e < s.counter) : Bool) = true) by simp [Nat.not_lt.mpr hle])]
  rw [if_neg (show ¬(baseBytes.length ≤ cfg.targetByteIndex + 1) by omega)]
  have hbb : ∀ b ∈ baseBytes, b < 256 := hexToUint8Array_bytes_lt _ _ hbase
  have hset : ∀ (i j : Nat) (u v : Nat), u < 256 → v < 256 →
      ∀ b ∈ (baseBytes.set i u).set j v, b < 256 := by
    intro i j u v hu hv b hb
    rcases List.mem_or_eq_of_mem_set hb with hb2 | hb2
    · rcases List.mem_or_eq_of_mem_set hb2 with hb3 | hb3
      · exact hbb b hb3
      · omega
    · omega
  cases hbe : cfg.isBigEndian with
  | true =>
    simp only [if_true, reduceIte]
    rw [sendData, hexToUint8Array_roundtrip _ (hset _ _ _ _
      (decimalToBytes_lt s.counter).1 (decimalToBytes_lt s.counter).2)]
    cases hhc : cfg.enableHeaderCheck <;> simp [hhc, hw]
  | false =>
    simp only [Bool.false_eq_true, reduceIte]
    rw [sendData, hexToUint8Array_roundtrip _ (hset _ _ _ _
      (decimalToBytes_lt s.counter).2 (decimalToBytes_lt s.counter).1)]
    cases hhc : cfg.enableHeaderCheck <;> simp [hhc, hw]

theorem scanEnd_spec (s : SweepState) (buffer : List Nat) (ptr : Nat) :
    (scanEnd s buffer ptr).1.rxBuffer = buffer.drop ptr ∧
    (scanEnd s buffer ptr).2 = [] := by
  unfold scanEnd
  split <;> exact ⟨rfl, rfl⟩

theorem scanEnd_indep (s t : SweepState) (buffer : List Nat) (ptr : Nat) :
    (scanEnd s buffer ptr).2 = (scanEnd t buffer ptr).2 ∧
    (scanEnd s buffer ptr).1.rxBuffer = (scanEnd t buffer ptr).1.rxBuffer :=
  ⟨(scanEnd_spec s buffer ptr).2.trans (scanEnd_spec t buffer ptr).2.symm,
    (scanEnd_spec s buffer ptr).1.trans (scanEnd_spec t buffer ptr).1.symm⟩

theorem scan_state_indep (cfg : AppConfig) (buffer : List Nat) :
    ∀ (fuel ptr : Nat) (s t : SweepState),
      (scanLoop cfg buffer fuel ptr s).2 = (scanLoop cfg buffer fuel ptr t).2 ∧
      (scanLoop cfg buffer fuel ptr s).1.rxBuffer =
        (scanLoop cfg buffer fuel ptr t).1.rxBuffer
  | 0, ptr, s, t => by
    simp only [scanLoop]
    exact scanEnd_indep s t buffer ptr
  | fuel + 1, ptr, s, t => by
    simp only [scanLoop]
    split_ifs <;>
      first
        | exact ⟨rfl, rfl⟩
        | exact scan_state_indep cfg buffer fuel (ptr + 15) _ _
        | exact scan_state_indep cfg buffer fuel (ptr + 1) _ _
        | exact scanEnd_indep s t buffer ptr

theorem scan_short (cfg : AppConfig) (buffer : List Nat) (fuel ptr : Nat)
    (s : SweepState) (h : ¬(ptr + 15 ≤ buffer.length)) :
    scanLoop cfg buffer (fuel + 1) ptr s = scanEnd s buffer ptr := by
  simp only [scanLoop]
  rw [if_neg h]

theorem handleData_strict (cfg : AppConfig) (chunk : List Nat) (s : SweepState)
    (h : cfg.enableHeaderCheck = true) :
    handleDataReceived cfg chunk s =
      scanLoop cfg (s.rxBuffer ++ chunk) ((s.rxBuffer ++ chunk).length + 1) 0
        { s with
          events := s.events ++ [SEvent.rxLog]
          rxBuffer := s.rxBuffer ++ chunk } := by
  unfold handleDataReceived processRxBuffer
  rw [if_pos (by simp [h])]

/-- C7: in strict mode, splitting the same 15 packet bytes across two
consecutive ingest calls (for example 7 bytes then 8 bytes) yields
exactly the same measurement result and the same final RxBuffer contents
as delivering all 15 bytes in a single ingest call; the first partial
call yields no measurement. -/
theorem C7_split_ingest (cfg : AppConfig) (s : SweepState) (c1 c2 : List Nat)
    (hstrict : cfg.enableHeaderCheck = true) (hbuf : s.rxBuffer = [])
    (hlen : c1.length + c2.length = 15) (hc2 : c2 ≠ []) :
    (handleDataReceived cfg c1 s).2 = [] ∧
    (handleDataReceived cfg c2 (handleDataReceived cfg c1 s).1).2 =
      (handleDataReceived cfg (c1 ++ c2) s).2 ∧
    (handleDataReceived cfg c2 (handleDataReceived cfg c1 s).1).1.rxBuffer =
      (handleDataReceived cfg (c1 ++ c2) s).1.rxBuffer := by
  have hc1 : c1.length < 15 := by
    have : 0 < c2.length := List.length_pos.mpr hc2
    omega
  have h1 : handleDataReceived cfg c1 s =
      scanEnd { s with
        events := s.events ++ [SEvent.rxLog]
        rxBuffer := c1 } c1 0 := by
    rw [handleData_strict cfg c1 s hstrict, hbuf]
    simp only [List.nil_append]
    exact scan_short cfg c1 c1.length 0 _ (by omega)
  have hrb1 : (handleDataReceived cfg c1 s).1.rxBuffer = c1 := by
    rw [h1]
    rw [(scanEnd_spec _ _ _).1]
    exact List.drop_zero c1
  refine ⟨by rw [h1]; exact (scanEnd_spec _ _ _).2, ?_, ?_⟩
  · rw [handleData_strict cfg c2 _ hstrict, handleData_strict cfg (c1 ++ c2) s hstrict,
      hrb1, hbuf]
    simp only [List.nil_append]
    exact (scan_state_indep cfg (c1 ++ c2) ((c1 ++ c2).length + 1) 0 _ _).1
  · rw [handleData_strict cfg c2 _ hstrict, handleData_strict cfg (c1 ++ c2) s hstrict,
      hrb1, hbuf]
    simp only [List.nil_append]
    exact (scan_state_indep cfg (c1 ++ c2) ((c1 ++ c2).length + 1) 0 _ _).2

/-- C6: in strict mode, at every buffer position where the 6 header
bytes match but the 4 footer bytes at offset 11 do not, the scan
increments the invalid-rx counter, emits no measurement for that
position, and resumes scanning at the position one byte past the failed
header start (pointer plus 1), not one whole packet length ahead. -/
theorem C6_footer_mismatch (cfg : AppConfig) (buffer : List Nat) (fuel ptr : Nat)
    (s : SweepState) (hlen : ptr + 15 ≤ buffer.length)
    (hH : (buffer.drop ptr).take 6 = HEADER)
    (hF : ¬((buffer.drop (ptr + 11)).take 4 = FOOTER)) :
    scanLoop cfg buffer (fuel + 1) ptr s =
      scanLoop cfg buffer fuel (ptr + 1) { s with rxInvalid := s.rxInvalid + 1 } := by
  simp only [scanLoop]
  rw [if_pos hlen, if_pos hH, if_neg hF]

/-- C5: in strict-validation mode, every tick that fires while
waitingForResponse is true retransmits byte-for-byte the bytes stored as
lastSentCommand, sets isRetrying, and neither advances the counter nor
sets a new pending frequency; iterating any number of ticks from such a
state changes only isRetrying, the tx counter and the emitted tx events,
each tick sending the identical bytes. -/
theorem C5_retry_iterate (cfg : AppConfig) (s : SweepState) (cmd : List Nat)
    (h1 : cfg.enableHeaderCheck = true) (h2 : s.waitingForResponse = true)
    (h3 : s.lastSentHex = some (uint8ArrayToHex cmd)) (hcmd : ∀ b ∈ cmd, b < 256) :
    ∀ n : Nat, (tickAutoSend cfg)^[n + 1] s =
      { s with
        isRetrying := true
        txCount := s.txCount + (n + 1)
        events := s.events ++ List.replicate (n + 1) (SEvent.tx cmd) } := by
  have h4 : hexToUint8Array (uint8ArrayToHex cmd) = some cmd :=
    hexToUint8Array_roundtrip cmd hcmd
  intro n
  induction n with
  | zero =>
    rw [Function.iterate_one]
    rw [tick_retry_eq cfg s (uint8ArrayToHex cmd) cmd h1 h2 h3 h4]
    simp
  | succ n ih =>
    have hw : ((tickAutoSend cfg)^[n + 1] s).waitingForResponse = true := by
      rw [ih]; exact h2
    have hl : ((tickAutoSend cfg)^[n + 1] s).lastSentHex = some (uint8ArrayToHex cmd) := by
      rw [ih]; exact h3
    rw [Function.iterate_succ_apply']
    rw [tick_retry_eq cfg _ (uint8ArrayToHex cmd) cmd h1 hw hl h4]
    rw [ih]
    simp [List.replicate_succ', Nat.add_assoc, List.append_assoc]

/-- C9: on a tick taken through the retry path (strict validation on,
waitingForResponse true, a stored last command), the only session-state
changes are that the tx statistic is incremented by one and isRetrying
is set; the counter, pendingFrequency, lastSentCommand,
waitingForResponse, the chart, and the rx statistics are unchanged, and
the retransmission is counted in txCount. -/
theorem C9_retry_frame (cfg : AppConfig) (s : SweepState) (hx : List Char)
    (data : List Nat) (h1 : cfg.enableHeaderCheck = true)
    (h2 : s.waitingForResponse = true) (h3 : s.lastSentHex = some hx)
    (h4 : hexToUint8Array hx = some data) :
    (tickAutoSend cfg s).counter = s.counter ∧
    (tickAutoSend cfg s).pendingFrequency = s.pendingFrequency ∧
    (tickAutoSend cfg s).lastSentHex = s.lastSentHex ∧
    (tickAutoSend cfg s).waitingForResponse = s.waitingForResponse ∧
    (tickAutoSend cfg s).chart = s.chart ∧
    (tickAutoSend cfg s).rxValid = s.rxValid ∧
    (tickAutoSend cfg s).rxInvalid = s.rxInvalid ∧
    (tickAutoSend cfg s).txCount = s.txCount + 1 ∧
    (tickAutoSend cfg s).isRetrying = true ∧
    (tickAutoSend cfg s).events = s.events ++ [SEvent.tx data] := by
  rw [tick_retry_eq cfg s hx data h1 h2 h3 h4]
  exact ⟨rfl, rfl, h3.symm ▸ rfl, rfl, rfl, rfl, rfl, rfl, rfl, rfl⟩

/-- C10: for every nonnegative value below 2 to the 31, decimalToBytes
returns the high and low bytes of the value taken modulo 65536, so
values at or above 65536 are silently truncated to their low 16 bits
rather than rejected. -/
theorem C10_truncation (v : Nat) (hv : v < 2 ^ 31) :
    decimalToBytes v = (v / 256 % 256, v % 256) ∧
    decimalToBytes v = decimalToBytes (v % 65536) := by
  refine ⟨decimalToBytes_eq v, ?_⟩
  rw [decimalToBytes_eq, decimalToBytes_eq, Prod.mk.injEq]
  constructor <;> omega

/-- Strict-mode configuration used by concrete instances: sweep range
0x0001 to 0x0003 with step 3, the default command template
05 43 46 0D 46 04 00 0D, TX bytes 3-4 high-first, strict RX high-first. -/
def cfgStrict : AppConfig :=
  { rangeStartHex := ['0', '0', '0', '1']
    rangeEndHex := ['0', '0', '0', '3']
    incrementStep := 3
    sweepBaseHex := ['0', '5', ' ', '4', '3', ' ', '4', '6', ' ', '0', 'D',
      ' ', '4', '6', ' ', '0', '4', ' ', '0', '0', ' ', '0', 'D']
    targetByteIndex := 3
    isBigEndian := true
    rxByteIndex := 6
    rxIsBigEndian := true
    enableHeaderCheck := true }

/-- A session in the lock-step waiting state with a stored last command
of two bytes 05 43. -/
def retryState : SweepState :=
  { initState with
    waitingForResponse := true
    isAutoSending := true
    lastSentHex := some (uint8ArrayToHex [5, 67]) }

/-- Witness for C9 at a concrete retry state with stored command 05 43. -/
theorem C9_witness :
    (cfgStrict.enableHeaderCheck = true ∧
      retryState.waitingForResponse = true ∧
      retryState.lastSentHex = some (uint8ArrayToHex [5, 67]) ∧
      hexToUint8Array (uint8ArrayToHex [5, 67]) = some [5, 67]) ∧
    ((tickAutoSend cfgStrict retryState).counter = retryState.counter ∧
    (tickAutoSend cfgStrict retryState).pendingFrequency = retryState.pendingFrequency ∧
    (tickAutoSend cfgStrict retryState).lastSentHex = retryState.lastSentHex ∧
    (tickAutoSend cfgStrict retryState).waitingForResponse = retryState.waitingForResponse ∧
    (tickAutoSend cfgStrict retryState).chart = retryState.chart ∧
    (tickAutoSend cfgStrict retryState).rxValid = retryState.rxValid ∧
    (tickAutoSend cfgStrict retryState).rxInvalid = retryState.rxInvalid ∧
    (tickAutoSend cfgStrict retryState).txCount = retryState.txCount + 1 ∧
    (tickAutoSend cfgStrict retryState).isRetrying = true ∧
    (tickAutoSend cfgStrict retryState).events =
      retryState.events ++ [SEvent.tx [5, 67]]) :=
  ⟨⟨rfl, rfl, rfl, by decide⟩,
    C9_retry_frame cfgStrict retryState (uint8ArrayToHex [5, 67]) [5, 67]
      rfl rfl rfl (by decide)⟩

/-- Witness for C10 at value 70000, which exceeds 65535. -/
theorem C10_witness :
    (70000 < 2 ^ 31) ∧
    (decimalToBytes 70000 = (70000 / 256 % 256, 70000 % 256) ∧
      decimalToBytes 70000 = decimalToBytes (70000 % 65536)) :=
  ⟨by norm_num, C10_truncation 70000 (by norm_num)⟩

/-- Witness for C5: two retry ticks from a concrete waiting state. -/
theorem C5_witness :
    (cfgStrict.enableHeaderCheck = true ∧
      retryState.waitingForResponse = true ∧
      retryState.lastSentHex = some (uint8ArrayToHex [5, 67]) ∧
      (∀ b ∈ [5, 67], b < 256)) ∧
    (tickAutoSend cfgStrict)^[2] retryState =
      { retryState with
        isRetrying := true
        txCount := retryState.txCount + 2
        events := retryState.events ++ List.replicate 2 (SEvent.tx [5, 67]) } :=
  ⟨⟨rfl, rfl, rfl, by decide⟩,
    C5_retry_iterate cfgStrict retryState [5, 67] rfl rfl rfl (by decide) 1⟩

/-- A 15-byte buffer whose first six bytes match the header but whose
bytes 11-14 do not match the footer. -/
def badFooterBuf : List Nat :=
  [0xFF, 0xFE, 0xFD, 0xFC, 0x02, 0x56, 0, 100, 0, 0, 0, 1, 2, 3, 4]

/-- Witness for C6 on a concrete buffer with valid header and broken
footer. -/
theorem C6_witness :
    ((0 + 15 ≤ badFooterBuf.length) ∧
      (badFooterBuf.drop 0).take 6 = HEADER ∧
      ¬((badFooterBuf.drop (0 + 11)).take 4 = FOOTER)) ∧
    scanLoop cfgStrict badFooterBuf (0 + 1) 0 initState =
      scanLoop cfgStrict badFooterBuf 0 (0 + 1)
        { initState with rxInvalid := initState.rxInvalid + 1 } :=
  ⟨⟨by decide, by decide, by decide⟩,
    C6_footer_mismatch cfgStrict badFooterBuf 0 0 initState
      (by decide) (by decide) (by decide)⟩

/-- Effect of ingesting one well-formed frame whose payload is in
range, for any starting state with an empty reassembly buffer. -/
theorem ingest_valid_frame (cfg : AppConfig) (s : SweepState) (b1 b2 x1 x2 x3 : Nat)
    (hstrict : cfg.enableHeaderCheck = true) (hrx : cfg.rxIsBigEndian = true)
    (hval : bytesToDecimal b1 b2 ≤ 4096) (hbuf : s.rxBuffer = []) :
    handleDataReceived cfg (frameBytes b1 b2 x1 x2 x3) s =
      ({ s with
          events := s.events ++ [SEvent.rxLog]
          lastReceivedValue := some (bytesToDecimal b1 b2)
          isRxInvalid := false
          chart := s.chart ++ (match s.pendingFrequency with
            | some f => [(round4 f, bytesToDecimal b1 b2)]
            | none => [])
          rxValid := s.rxValid + 1
          waitingForResponse := false
          isRetrying := false
          rxBuffer := [] }, [bytesToDecimal b1 b2]) := by
  unfold handleDataReceived
  rw [if_pos (by simp [hstrict])]
  rw [process_valid_frame cfg _ b1 b2 x1 x2 x3 hrx hval (by simp [hbuf])]


/-- The wire frame FF FE FD FC 02 56 00 64 AA BB CC FB FA F9 F8. -/
def frame100 : List Nat := frameBytes 0x00 0x64 0xAA 0xBB 0xCC

/-- A running session that has transmitted the command for counter value
1 and is awaiting its reply. -/
def pendingState : SweepState :=
  { initState with
    pendingFrequency := some (rawFreq 1)
    waitingForResponse := true
    isAutoSending := true }

/-- C1 counterexample: after a valid measurement is charted against the
pending frequency, pendingFrequency is still set (not cleared as the
claim states), and a second valid measurement arriving before the next
tick is charted against the same frequency a second time. -/
theorem C1_counterexample :
    (handleDataReceived cfgStrict frame100 pendingState).1.pendingFrequency
        = some (rawFreq 1) ∧
    (handleDataReceived cfgStrict frame100 pendingState).1.pendingFrequency
        ≠ none ∧
    (handleDataReceived cfgStrict frame100
        (handleDataReceived cfgStrict frame100 pendingState).1).1.chart =
      [(round4 (rawFreq 1), 100), (round4 (rawFreq 1), 100)] := by
  refine ⟨rfl, ?_, rfl⟩
  rw [show (handleDataReceived cfgStrict frame100 pendingState).1.pendingFrequency
      = some (rawFreq 1) from rfl]
  simp

/-- C1 amended: whenever the frame reassembler yields a valid
measurement while a pending frequency is set, the controller clears
waitingForResponse and isRetrying, increments the valid-rx counter and
appends the point (pendingFrequency rounded to 4 decimals, value) to the
chart, but it does NOT clear pendingFrequency, so a second valid
measurement arriving before the next tick is attributed to the same
frequency again. -/
theorem C1_amended (cfg : AppConfig) (s : SweepState) (f : ℚ) (b1 b2 x1 x2 x3 : Nat)
    (hstrict : cfg.enableHeaderCheck = true) (hrx : cfg.rxIsBigEndian = true)
    (hval : bytesToDecimal b1 b2 ≤ 4096) (hbuf : s.rxBuffer = [])
    (hp : s.pendingFrequency = some f) :
    handleDataReceived cfg (frameBytes b1 b2 x1 x2 x3) s =
      ({ s with
          events := s.events ++ [SEvent.rxLog]
          lastReceivedValue := some (bytesToDecimal b1 b2)
          isRxInvalid := false
          chart := s.chart ++ [(round4 f, bytesToDecimal b1 b2)]
          rxValid := s.rxValid + 1
          waitingForResponse := false
          isRetrying := false
          rxBuffer := [] }, [bytesToDecimal b1 b2]) := by
  rw [ingest_valid_frame cfg s b1 b2 x1 x2 x3 hstrict hrx hval hbuf, hp]

/-- Witness for C1 amended at the concrete frame with payload 100. -/
theorem C1_witness :
    (cfgStrict.enableHeaderCheck = true ∧ cfgStrict.rxIsBigEndian = true ∧
      bytesToDecimal 0x00 0x64 ≤ 4096 ∧ pendingState.rxBuffer = [] ∧
      pendingState.pendingFrequency = some (rawFreq 1)) ∧
    handleDataReceived cfgStrict (frameBytes 0x00 0x64 0xAA 0xBB 0xCC) pendingState =
      ({ pendingState with
          events := pendingState.events ++ [SEvent.rxLog]
          lastReceivedValue := some (bytesToDecimal 0x00 0x64)
          isRxInvalid := false
          chart := pendingState.chart ++ [(round4 (rawFreq 1), bytesToDecimal 0x00 0x64)]
          rxValid := pendingState.rxValid + 1
          waitingForResponse := false
          isRetrying := false
          rxBuffer := [] }, [bytesToDecimal 0x00 0x64]) :=
  ⟨⟨rfl, rfl, by decide, rfl, rfl⟩,
    C1_amended cfgStrict pendingState (rawFreq 1) 0x00 0x64 0xAA 0xBB 0xCC
      rfl rfl (by decide) rfl rfl⟩


/-- cfgStrict with the range reversed: start 0x0001, end 0x0000. -/
def cfgBadRange : AppConfig :=
  { cfgStrict with rangeEndHex := ['0', '0', '0', '0'] }

/-- C2 counterexample: starting a sweep with start 0x0001 greater than
end 0x0000 succeeds; the controller enters the running state instead of
failing with InvalidRange and staying idle. -/
theorem C2_counterexample :
    (toggleAutoSend cfgBadRange initState).isAutoSending = true := rfl

/-- C2 amended: start validates only that the start and end fields
parse as hex; neither start less-or-equal end nor step positivity is
checked and no InvalidRange error exists. With start greater than end
the sweep still starts (enters the running state, counter set to start);
the first tick then transmits nothing, emits the completion event and
stops the sweep. -/
theorem C2_amended (cfg : AppConfig) (s : SweepState) (st en : Nat)
    (hst : parseHex16 cfg.rangeStartHex = some st)
    (hen : parseHex16 cfg.rangeEndHex = some en)
    (hlt : en < st) (hidle : s.isAutoSending = false) :
    (toggleAutoSend cfg s).isAutoSending = true ∧
    (toggleAutoSend cfg s).counter = st ∧
    tickAutoSend cfg (toggleAutoSend cfg s) =
      { toggleAutoSend cfg s with
        isRetrying := false
        isAutoSending := false
        events := (toggleAutoSend cfg s).events ++ [SEvent.complete] } := by
  have htog : toggleAutoSend cfg s =
      { s with
        counter := st
        chart := []
        pendingFrequency := none
        waitingForResponse := false
        isRetrying := false
        isRxInvalid := false
        rxBuffer := []
        txCount := 0
        rxValid := 0
        rxInvalid := 0
        isAutoSending := true
        events := s.events ++ [SEvent.info] } := by
    unfold toggleAutoSend
    rw [if_neg (by simp [hidle])]
    simp only [hst, hen]
  rw [htog]
  refine ⟨rfl, rfl, ?_⟩
  unfold tickAutoSend
  rw [if_neg (by simp)]
  simp only [hen]
  rw [if_pos (by simp [hlt])]

/-- Witness for C2 amended at start 0x0001, end 0x0000. -/
theorem C2_witness :
    (parseHex16 cfgBadRange.rangeStartHex = some 1 ∧
      parseHex16 cfgBadRange.rangeEndHex = some 0 ∧
      0 < 1 ∧ initState.isAutoSending = false) ∧
    ((toggleAutoSend cfgBadRange initState).isAutoSending = true ∧
      (toggleAutoSend cfgBadRange initState).counter = 1 ∧
      tickAutoSend cfgBadRange (toggleAutoSend cfgBadRange initState) =
        { toggleAutoSend cfgBadRange initState with
          isRetrying := false
          isAutoSending := false
          events := (toggleAutoSend cfgBadRange initState).events ++ [SEvent.complete] }) :=
  ⟨⟨by decide, by decide, by decide, rfl⟩,
    C2_amended cfgBadRange initState 1 0 (by decide) (by decide) (by decide) rfl⟩

/-- cfgStrict with low-first RX decoding. -/
def cfgLow : AppConfig := { cfgStrict with rxIsBigEndian := false }

/-- C3 counterexample: with LowFirst RX endianness the frame
FF FE FD FC 02 56 00 64 AA BB CC FB FA F9 F8 decodes to 25600 (not
25700), which exceeds 4096, so ingest yields no valid measurement and
counts the frame as invalid. -/
theorem C3_counterexample :
    bytesToDecimal 0x64 0x00 = 25600 ∧
    (handleDataReceived cfgLow frame100 initState).2 = [] ∧
    (handleDataReceived cfgLow frame100 initState).1.rxInvalid = 1 := by
  refine ⟨by decide, by decide, by decide⟩

/-- C3 amended: for a strict-mode buffer holding exactly the frame
FF FE FD FC 02 56 00 64 AA BB CC FB FA F9 F8, ingest returns the single
valid measurement 100 under HighFirst and leaves the buffer empty; under
LowFirst the decoded value 25600 is out of range, so no measurement is
returned, the invalid counter is incremented, and the buffer is likewise
left empty. -/
theorem C3_amended :
    (handleDataReceived cfgStrict frame100 initState).2 = [100] ∧
    (handleDataReceived cfgStrict frame100 initState).1.rxBuffer = [] ∧
    (handleDataReceived cfgStrict frame100 initState).1.rxValid = 1 ∧
    (handleDataReceived cfgLow frame100 initState).2 = [] ∧
    (handleDataReceived cfgLow frame100 initState).1.rxBuffer = [] ∧
    (handleDataReceived cfgLow frame100 initState).1.rxInvalid = 1 := by
  refine ⟨by decide, by decide, by decide, by decide, by decide, by decide⟩


/-- C4 counterexample: after sending at counter code 1 and receiving a
valid measurement, the charted frequency is 4883/10000 (the raw
frequency rounded to 4 decimal places by toFixed), which differs from
the exact value (1 / 65536) * 32000 = 125/256 the claim requires. -/
theorem C4_counterexample :
    (handleDataReceived cfgStrict frame100
        (tickAutoSend cfgStrict (toggleAutoSend cfgStrict initState))).1.chart =
      [(round4 (rawFreq 1), 100)] ∧
    round4 (rawFreq 1) = 4883 / 10000 ∧
    (4883 / 10000 : ℚ) ≠ rawFreq 1 := by
  refine ⟨rfl, ?_, ?_⟩
  · rw [round4, show rawFreq 1 * 10000 + 1 / 2 = 78133 / 16 by rw [rawFreq]; norm_num]
    rw [show ⌊(78133 / 16 : ℚ)⌋ = 4883 by rw [Int.floor_eq_iff] <;> norm_num]
    norm_num
  · rw [rawFreq]
    norm_num

/-- C4 amended: each chart point appended for a measurement equals the
raw frequency (code / 65536) * 32000 rounded to 4 decimal places, for
the counter code that was pending when the command was transmitted; the
counter itself has already advanced by step before the measurement
arrives, and the charted frequency does not depend on it. -/
theorem C4_amended (cfg : AppConfig) (s : SweepState) (e : Nat) (bb : List Nat)
    (b1 b2 x1 x2 x3 : Nat)
    (hstrict : cfg.enableHeaderCheck = true) (hrx : cfg.rxIsBigEndian = true)
    (hw : s.waitingForResponse = false)
    (hend : parseHex16 cfg.rangeEndHex = some e) (hle : s.counter ≤ e)
    (hbase : hexToUint8Array cfg.sweepBaseHex = some bb)
    (hlen : cfg.targetByteIndex + 1 < bb.length)
    (hbuf : s.rxBuffer = []) (hval : bytesToDecimal b1 b2 ≤ 4096) :
    (tickAutoSend cfg s).counter = s.counter + cfg.incrementStep ∧
    (tickAutoSend cfg s).pendingFrequency = some (rawFreq s.counter) ∧
    (handleDataReceived cfg (frameBytes b1 b2 x1 x2 x3) (tickAutoSend cfg s)).1.chart =
      s.chart ++ [(round4 (rawFreq s.counter), bytesToDecimal b1 b2)] := by
  rw [tick_send_eq cfg s e bb hw hend hle hbase hlen]
  refine ⟨rfl, rfl, ?_⟩
  rw [ingest_valid_frame cfg _ b1 b2 x1 x2 x3 hstrict hrx hval (by simp [hbuf])]


/-- Witness for C4 amended: a tick at counter 1 followed by a valid
measurement of 100. -/
theorem C4_witness :
    (cfgStrict.enableHeaderCheck = true ∧ cfgStrict.rxIsBigEndian = true ∧
      (toggleAutoSend cfgStrict initState).waitingForResponse = false ∧
      parseHex16 cfgStrict.rangeEndHex = some 3 ∧
      (toggleAutoSend cfgStrict initState).counter ≤ 3 ∧
      hexToUint8Array cfgStrict.sweepBaseHex = some [5, 67, 70, 13, 70, 4, 0, 13] ∧
      cfgStrict.targetByteIndex + 1 < 8 ∧
      (toggleAutoSend cfgStrict initState).rxBuffer = [] ∧
      bytesToDecimal 0x00 0x64 ≤ 4096) ∧
    ((tickAutoSend cfgStrict (toggleAutoSend cfgStrict initState)).counter =
        (toggleAutoSend cfgStrict initState).counter + cfgStrict.incrementStep ∧
      (tickAutoSend cfgStrict (toggleAutoSend cfgStrict initState)).pendingFrequency =
        some (rawFreq (toggleAutoSend cfgStrict initState).counter) ∧
      (handleDataReceived cfgStrict (frameBytes 0x00 0x64 0xAA 0xBB 0xCC)
          (tickAutoSend cfgStrict (toggleAutoSend cfgStrict initState))).1.chart =
        (toggleAutoSend cfgStrict initState).chart ++
          [(round4 (rawFreq (toggleAutoSend cfgStrict initState).counter),
            bytesToDecimal 0x00 0x64)]) :=
  ⟨⟨rfl, rfl, rfl, by decide, by decide, by decide, by decide, rfl, by decide⟩,
    C4_amended cfgStrict (toggleAutoSend cfgStrict initState) 3
      [5, 67, 70, 13, 70, 4, 0, 13] 0x00 0x64 0xAA 0xBB 0xCC
      rfl rfl rfl (by decide) (by decide) (by decide) (by decide) rfl (by decide)⟩

/-- Configuration of the C8 run: start 0x0000, end 0x0003, step 3,
strict validation off so every tick may advance. -/
def cfgSweep : AppConfig :=
  { cfgStrict with
    rangeStartHex := ['0', '0', '0', '0']
    enableHeaderCheck := false }

/-- C8: a sweep from 0x0000 to 0x0003 with step 3 transmits on exactly
two ticks, carrying counter values 0 and then 3 in bytes 3-4 of the
template; the third tick, at counter 6 greater than end, stops the sweep
and emits a completion event without transmitting. -/
theorem C8_sweep_run :
    tickAutoSend cfgSweep (tickAutoSend cfgSweep (tickAutoSend cfgSweep
        (toggleAutoSend cfgSweep initState))) =
      { initState with
        counter := 6
        pendingFrequency := some (rawFreq 3)
        lastSentHex := some (uint8ArrayToHex [5, 67, 70, 0, 3, 4, 0, 13])
        txCount := 2
        isAutoSending := false
        events := [SEvent.info, SEvent.tx [5, 67, 70, 0, 0, 4, 0, 13],
          SEvent.tx [5, 67, 70, 0, 3, 4, 0, 13], SEvent.complete] } := by
  rfl


/-- First seven bytes of the frame FF FE FD FC 02 56 00 ... -/
def chunkA : List Nat := [0xFF, 0xFE, 0xFD, 0xFC, 0x02, 0x56, 0x00]

/-- Remaining eight bytes 64 AA BB CC FB FA F9 F8. -/
def chunkB : List Nat := [0x64, 0xAA, 0xBB, 0xCC, 0xFB, 0xFA, 0xF9, 0xF8]

/-- Witness for C7: the frame with payload 100 split 7 bytes then
8 bytes. -/
theorem C7_witness :
    (cfgStrict.enableHeaderCheck = true ∧ initState.rxBuffer = [] ∧
      chunkA.length + chunkB.length = 15 ∧ chunkB ≠ []) ∧
    ((handleDataReceived cfgStrict chunkA initState).2 = [] ∧
      (handleDataReceived cfgStrict chunkB
          (handleDataReceived cfgStrict chunkA initState).1).2 =
        (handleDataReceived cfgStrict (chunkA ++ chunkB) initState).2 ∧
      (handleDataReceived cfgStrict chunkB
          (handleDataReceived cfgStrict chunkA initState).1).1.rxBuffer =
        (handleDataReceived cfgStrict (chunkA ++ chunkB) initState).1.rxBuffer) :=
  ⟨⟨rfl, rfl, by decide, by decide⟩,
    C7_split_ingest cfgStrict initState chunkA chunkB rfl rfl (by decide) (by decide)⟩

end SerialSweep
